import Mathlib

/-!
# PCLtoVTK_template.cxx: point cloud to poly-data conversion

A shallow embedding of `src/PCLtoVTK_template.cxx`.

* The scalar type of the program (`float`) is the type parameter `F`: the
  program only copies scalars, it performs no arithmetic on them.
* A cloud (`pcl::PointCloud<PointT>`, field `points`) is a `List` of points.
* The VTK objects the program drives (`vtkPoints`, `vtkFloatArray`,
  `vtkPolyData` with its point data) are records, and each library call the
  program makes is a function on these records.
* `main` is a function from the command line and an environment (the files on
  disk, the answer of the writer) to an exit status and the list of the
  effects it performed, in order.
-/

namespace PCLVTK

/-! ## Point types -/

/-- The point type `pcl::PointXYZ`: a position. -/
structure PointXYZ (F : Type) where
  x : F
  y : F
  z : F
deriving DecidableEq, Repr

/-- The point type `pcl::PointXYZRGB`: a position and a packed colour. -/
structure PointXYZRGB (F : Type) where
  x : F
  y : F
  z : F
  rgb : F
deriving DecidableEq, Repr

/-- The point type `pcl::PointXYZRGBNormal`: position, packed colour, normal. -/
structure PointXYZRGBNormal (F : Type) where
  x : F
  y : F
  z : F
  rgb : F
  normal_x : F
  normal_y : F
  normal_z : F
deriving DecidableEq, Repr

/-- What the primary template `PCLtoVTK<PointT>` asks of `PointT`: the members
`x`, `y` and `z`. -/
class HasXYZ (P : Type) (F : outParam Type) where
  x : P → F
  y : P → F
  z : P → F

instance instHasXYZPointXYZ (F : Type) : HasXYZ (PointXYZ F) F where
  x := PointXYZ.x
  y := PointXYZ.y
  z := PointXYZ.z

/-! ## The VTK objects -/

/-- A `vtkPoints` object: the points inserted so far, in insertion order. -/
structure vtkPoints (F : Type) where
  data : List (F × F × F)
deriving DecidableEq, Repr

/-- The call `vtkSmartPointer<vtkPoints>::New()`: no point. -/
def vtkPoints.New {F : Type} : vtkPoints F := ⟨[]⟩

/-- The call `points->InsertNextPoint(x, y, z)`: the point goes to the end. -/
def vtkPoints.InsertNextPoint {F : Type} (points : vtkPoints F) (x y z : F) : vtkPoints F :=
  ⟨points.data ++ [(x, y, z)]⟩

/-- The call `points->GetNumberOfPoints()`. -/
def vtkPoints.GetNumberOfPoints {F : Type} (points : vtkPoints F) : Nat :=
  points.data.length

/-- The call `points->GetPoint(i)`; `none` beyond the last point. -/
def vtkPoints.GetPoint {F : Type} (points : vtkPoints F) (i : Nat) : Option (F × F × F) :=
  points.data[i]?

/-- A `vtkFloatArray`: its name (`none` until `SetName`), the number of
components of a tuple, and the flat value buffer, tuple after tuple. A slot of
the buffer that was allocated and never written is `none`. -/
structure vtkFloatArray (F : Type) where
  name : Option String
  numberOfComponents : Nat
  data : List (Option F)
deriving DecidableEq, Repr

/-- The call `vtkSmartPointer<vtkFloatArray>::New()`: unnamed, one component,
empty. -/
def vtkFloatArray.New {F : Type} : vtkFloatArray F := ⟨none, 1, []⟩

/-- The call `a->SetNumberOfComponents(c)`; VTK clamps the count to at least 1. -/
def vtkFloatArray.SetNumberOfComponents {F : Type} (a : vtkFloatArray F) (c : Nat) :
    vtkFloatArray F :=
  { a with numberOfComponents := if 0 < c then c else 1 }

/-- The call `a->SetName(s)`. -/
def vtkFloatArray.SetName {F : Type} (a : vtkFloatArray F) (s : String) : vtkFloatArray F :=
  { a with name := some s }

/-- The call `a->SetNumberOfTuples(n)`: the buffer holds `n` tuples, whose
content is not initialised. -/
def vtkFloatArray.SetNumberOfTuples {F : Type} (a : vtkFloatArray F) (n : Nat) :
    vtkFloatArray F :=
  { a with data := List.replicate (n * a.numberOfComponents) none }

/-- The call `a->InsertNextValue(v)`: the value goes to the end of the buffer. -/
def vtkFloatArray.InsertNextValue {F : Type} (a : vtkFloatArray F) (v : F) : vtkFloatArray F :=
  { a with data := a.data ++ [some v] }

/-- The call `a->SetTuple(i, tuple)`: component `j` of `tuple` is stored in slot
`i * numberOfComponents + j` of the buffer, for each component `j`. -/
def vtkFloatArray.SetTuple {F : Type} (a : vtkFloatArray F) (i : Nat) (tuple : List F) :
    vtkFloatArray F :=
  let written := List.foldl (fun d j => d.set (i * a.numberOfComponents + j) tuple[j]?)
    a.data (List.range a.numberOfComponents)
  { a with data := written }

/-- The call `a->GetNumberOfTuples()`. -/
def vtkFloatArray.GetNumberOfTuples {F : Type} (a : vtkFloatArray F) : Nat :=
  a.data.length / a.numberOfComponents

/-- The call `a->GetValue(i)`: the content of slot `i`, `none` when the slot is
outside the buffer or was never written. -/
def vtkFloatArray.GetValue {F : Type} (a : vtkFloatArray F) (i : Nat) : Option F :=
  a.data[i]?.join

/-- The call `a->GetTuple(i)`: the slots of tuple `i`. -/
def vtkFloatArray.GetTuple {F : Type} (a : vtkFloatArray F) (i : Nat) : List (Option F) :=
  (a.data.drop (i * a.numberOfComponents)).take a.numberOfComponents

/-- The point data of a poly-data (`pdata->GetPointData()`): the list of its
arrays, and the index in that list of the array that is the active normals
(`none` when no normals are set). The normals are one of the arrays of the
list, as in VTK. -/
structure vtkPointData (F : Type) where
  arrays : List (vtkFloatArray F)
  normalsIndex : Option Nat
deriving DecidableEq, Repr

/-- The call `pd->GetNormals()`: the array at the normals index, `none` when no
index is set or the index designates no array. -/
def vtkPointData.normals {F : Type} (pd : vtkPointData F) : Option (vtkFloatArray F) :=
  match pd.normalsIndex with
  | none => none
  | some i => pd.arrays[i]?

/-- The array list after `AddArray(a)`: the first array with the name of `a` is
replaced by `a`; when there is none, or `a` has no name, `a` goes to the end. -/
def addToArrays {F : Type} (a : vtkFloatArray F) : List (vtkFloatArray F) → List (vtkFloatArray F)
  | [] => [a]
  | b :: bs =>
    if a.name.isSome && b.name == a.name then a :: bs else b :: addToArrays a bs

/-- The index `AddArray(a)` stores `a` at: the index of the first array with the
name of `a`, and the length of the list when there is none or `a` has no name. -/
def indexForArray {F : Type} (a : vtkFloatArray F) : List (vtkFloatArray F) → Nat
  | [] => 0
  | b :: bs =>
    if a.name.isSome && b.name == a.name then 0 else indexForArray a bs + 1

/-- The call `pd->AddArray(a)`: the array list changes, in place when an array
has the name of `a`; the normals index stays what it was, so when the array
replaced is the active normals, `a` is the active normals after the call. -/
def vtkPointData.AddArray {F : Type} (pd : vtkPointData F) (a : vtkFloatArray F) :
    vtkPointData F :=
  { pd with arrays := addToArrays a pd.arrays }

/-- The call `pd->SetNormals(a)`: nothing changes when `a` has not exactly 3
components; otherwise the array that was the active normals is removed from the
list, `a` is added as by `AddArray`, and its index becomes the normals index. -/
def vtkPointData.SetNormals {F : Type} (pd : vtkPointData F) (a : vtkFloatArray F) :
    vtkPointData F :=
  if a.numberOfComponents = 3 then
    let kept :=
      match pd.normalsIndex with
      | none => pd.arrays
      | some i => pd.arrays.eraseIdx i
    { arrays := addToArrays a kept, normalsIndex := some (indexForArray a kept) }
  else pd

/-- The call `pd->GetArray(name)`: the first array with that name. -/
def vtkPointData.GetArray {F : Type} (pd : vtkPointData F) (name : String) :
    Option (vtkFloatArray F) :=
  pd.arrays.find? (fun b => b.name == some name)

/-- A `vtkPolyData`: its points (`none` until `SetPoints`) and its point data. -/
structure vtkPolyData (F : Type) where
  points : Option (vtkPoints F)
  pointData : vtkPointData F
deriving DecidableEq, Repr

/-- The call `vtkSmartPointer<vtkPolyData>::New()`: no points, no array, no
normals. -/
def vtkPolyData.New {F : Type} : vtkPolyData F := ⟨none, ⟨[], none⟩⟩

/-- The call `pdata->SetPoints(points)`. -/
def vtkPolyData.SetPoints {F : Type} (pdata : vtkPolyData F) (points : vtkPoints F) :
    vtkPolyData F :=
  { pdata with points := some points }

/-- The call `pdata->GetNumberOfPoints()`: 0 when no points were set. -/
def vtkPolyData.GetNumberOfPoints {F : Type} (pdata : vtkPolyData F) : Nat :=
  match pdata.points with
  | none => 0
  | some points => points.GetNumberOfPoints

/-- The call `pdata->GetPoint(i)`. -/
def vtkPolyData.GetPoint {F : Type} (pdata : vtkPolyData F) (i : Nat) : Option (F × F × F) :=
  match pdata.points with
  | none => none
  | some points => points.GetPoint i

/-! ## The conversion routines -/

/-- The loop `for (size_t i = start; i < start + count; ++i) body`: `count`
iterations, the index going up by one from `start`. -/
def forLoop {σ : Type} (body : Nat → σ → σ) : Nat → Nat → σ → σ
  | _, 0, st => st
  | i, count + 1, st => forLoop body (i + 1) count (body i st)

/-- The body of the loop of `PCLtoVTK<PointT>` (source line 30). -/
def bodyXYZ {P F : Type} [HasXYZ P F] (cloud : List P) (i : Nat) (points : vtkPoints F) :
    vtkPoints F :=
  match cloud[i]? with
  | some p => points.InsertNextPoint (HasXYZ.x p) (HasXYZ.y p) (HasXYZ.z p)
  | none => points

/-- The primary template `PCLtoVTK<PointT>` (source lines 24 to 34). -/
def PCLtoVTK {P F : Type} [HasXYZ P F] (cloud : List P) (pdata : vtkPolyData F) :
    vtkPolyData F :=
  let points : vtkPoints F := vtkPoints.New
  let points := forLoop (bodyXYZ cloud) 0 cloud.length points
  pdata.SetPoints points

/-- The body of the loop of `PCLtoVTK<pcl::PointXYZRGB>` (source lines 47, 48),
on the pair of `points` and `rgbs`. -/
def bodyXYZRGB {F : Type} (cloud : List (PointXYZRGB F)) (i : Nat)
    (st : vtkPoints F × vtkFloatArray F) : vtkPoints F × vtkFloatArray F :=
  match cloud[i]? with
  | some p => (st.1.InsertNextPoint p.x p.y p.z, st.2.InsertNextValue p.rgb)
  | none => st

/-- The specialisation `PCLtoVTK<pcl::PointXYZRGB>` (source lines 37 to 53). -/
def PCLtoVTK_PointXYZRGB {F : Type} (cloud : List (PointXYZRGB F)) (pdata : vtkPolyData F) :
    vtkPolyData F :=
  let points : vtkPoints F := vtkPoints.New
  let rgbs : vtkFloatArray F := vtkFloatArray.New
  let rgbs := rgbs.SetNumberOfComponents 1
  let rgbs := rgbs.SetName "RGB"
  let st := forLoop (bodyXYZRGB cloud) 0 cloud.length (points, rgbs)
  let pdata := pdata.SetPoints st.1
  { pdata with pointData := pdata.pointData.AddArray st.2 }

/-- The three objects the loop of `PCLtoVTK<pcl::PointXYZRGBNormal>` works on. -/
structure NormalState (F : Type) where
  points : vtkPoints F
  rgbs : vtkFloatArray F
  normals : vtkFloatArray F
deriving DecidableEq, Repr

/-- The body of the loop of `PCLtoVTK<pcl::PointXYZRGBNormal>` (source lines 70
to 73). -/
def bodyXYZRGBNormal {F : Type} (cloud : List (PointXYZRGBNormal F)) (i : Nat)
    (st : NormalState F) : NormalState F :=
  match cloud[i]? with
  | some p =>
    let norm_tuple := [p.normal_x, p.normal_y, p.normal_z]
    { points := st.points.InsertNextPoint p.x p.y p.z
      rgbs := st.rgbs.InsertNextValue p.rgb
      normals := st.normals.SetTuple i norm_tuple }
  | none => st

/-- The objects of `PCLtoVTK<pcl::PointXYZRGBNormal>` when its loop starts
(source lines 59 to 66). -/
def initXYZRGBNormal {F : Type} (cloud : List (PointXYZRGBNormal F)) : NormalState F :=
  let points : vtkPoints F := vtkPoints.New
  let rgbs : vtkFloatArray F := vtkFloatArray.New
  let rgbs := rgbs.SetNumberOfComponents 1
  let rgbs := rgbs.SetName "RGB"
  let normals : vtkFloatArray F := vtkFloatArray.New
  let normals := normals.SetNumberOfComponents 3
  let normals := normals.SetNumberOfTuples cloud.length
  { points := points, rgbs := rgbs, normals := normals }

/-- The objects of `PCLtoVTK<pcl::PointXYZRGBNormal>` after the first `k`
iterations of its loop. -/
def afterXYZRGBNormal {F : Type} (cloud : List (PointXYZRGBNormal F)) (k : Nat) :
    NormalState F :=
  forLoop (bodyXYZRGBNormal cloud) 0 k (initXYZRGBNormal cloud)

/-- The specialisation `PCLtoVTK<pcl::PointXYZRGBNormal>` (source lines 56 to
79). -/
def PCLtoVTK_PointXYZRGBNormal {F : Type} (cloud : List (PointXYZRGBNormal F))
    (pdata : vtkPolyData F) : vtkPolyData F :=
  let st := afterXYZRGBNormal cloud cloud.length
  let pdata := pdata.SetPoints st.points
  let pdata := { pdata with pointData := pdata.pointData.AddArray st.rgbs }
  { pdata with pointData := pdata.pointData.SetNormals st.normals }

/-! ## The program -/

/-- The points stored in a PCD file: a file holds points of one of the three
variants. -/
inductive PCDData (F : Type) where
  | xyz (points : List (PointXYZ F))
  | xyzrgb (points : List (PointXYZRGB F))
  | xyzrgbnormal (points : List (PointXYZRGBNormal F))
deriving DecidableEq, Repr

/-- The fields `x`, `y`, `z` of the points of a file, in file order. -/
def PCDData.positions {F : Type} : PCDData F → List (PointXYZ F)
  | .xyz points => points
  | .xyzrgb points => points.map (fun p => ⟨p.x, p.y, p.z⟩)
  | .xyzrgbnormal points => points.map (fun p => ⟨p.x, p.y, p.z⟩)

/-- Whether the points of the file carry a colour. -/
def PCDData.carriesColour {F : Type} : PCDData F → Bool
  | .xyz _ => false
  | .xyzrgb _ => true
  | .xyzrgbnormal _ => true

/-- Whether the points of the file carry a normal. -/
def PCDData.carriesNormals {F : Type} : PCDData F → Bool
  | .xyz _ => false
  | .xyzrgb _ => false
  | .xyzrgbnormal _ => true

/-- The number of points of the file. -/
def PCDData.size {F : Type} (d : PCDData F) : Nat := d.positions.length

/-- The world a run of the program meets: the content of each path that can be
read as a PCD file (`none` for a missing or malformed file), and the value
`writer->Write()` returns for a file name and a poly-data. -/
structure Env (F : Type) where
  files : String → Option (PCDData F)
  writeAnswer : String → vtkPolyData F → Int

/-- The call `pcl::io::loadPCDFile<pcl::PointXYZ>(file_name, *cloud)`: the status
(-1 on a read error, 0 on success) and the cloud after the call. Loading as
`pcl::PointXYZ` fills the fields `x`, `y`, `z` of each point and nothing else. -/
def loadPCDFile_PointXYZ {F : Type} (env : Env F) (file_name : String) :
    Int × List (PointXYZ F) :=
  match env.files file_name with
  | none => (-1, [])
  | some d => (0, d.positions)

/-- What a run does to the outside, one entry per action: a text sent to
`std::cerr` or `std::cout`, a call of the loader, the call of the conversion
routine, a call of the writer with its file name and input. -/
inductive Effect (F : Type) where
  | cerr (text : String)
  | cout (text : String)
  | loadFile (file_name : String)
  | convert
  | writeFile (file_name : String) (pdata : vtkPolyData F)
deriving DecidableEq, Repr

/-- The result of a run: the value `main` returns and what it did, in order. -/
structure Run (F : Type) where
  status : Int
  effects : List (Effect F)
deriving DecidableEq, Repr

/-- The constant `EXIT_SUCCESS`. -/
def EXIT_SUCCESS : Int := 0

/-- The constant `EXIT_FAILURE`. -/
def EXIT_FAILURE : Int := 1

/-- The function `main` (source lines 81 to 120); `argv` holds the program name
and the arguments, and `argc` is its length. -/
def main {F : Type} (env : Env F) (argv : List String) : Run F :=
  let argc := argv.length
  if argc < 3 then
    ⟨EXIT_FAILURE, [Effect.cerr "Required arguments: input.pcd output.vtp\n"]⟩
  else
    let inputFileName := argv.getD 1 ""
    let outputFileName := argv.getD 2 ""
    let announced : List (Effect F) :=
      [Effect.cout ("Reading " ++ inputFileName ++ " and writing " ++ outputFileName ++ "\n"),
       Effect.cout "x y z"]
    let loaded := loadPCDFile_PointXYZ env inputFileName
    if loaded.1 == -1 then
      ⟨EXIT_FAILURE,
        announced ++ [Effect.loadFile inputFileName, Effect.cerr "Couldn't read file \n"]⟩
    else
      let cloud := loaded.2
      let polydata : vtkPolyData F := vtkPolyData.New
      let polydata := PCLtoVTK cloud polydata
      let _written := env.writeAnswer outputFileName polydata
      ⟨EXIT_SUCCESS,
        announced ++ [Effect.loadFile inputFileName, Effect.convert,
          Effect.writeFile outputFileName polydata]⟩

/-! ## The invariant of the output container -/

/-- The invariant of the output container: each attribute array, and the normals
when there are some, has exactly one tuple per point. -/
def attributesAligned {F : Type} (pdata : vtkPolyData F) : Bool :=
  pdata.pointData.arrays.all (fun a => a.GetNumberOfTuples == pdata.GetNumberOfPoints) &&
  pdata.pointData.normals.all (fun a => a.GetNumberOfTuples == pdata.GetNumberOfPoints)

/-- The position of a point, as `InsertNextPoint` receives it. -/
def xyzOf {P F : Type} [HasXYZ P F] (p : P) : F × F × F :=
  (HasXYZ.x p, HasXYZ.y p, HasXYZ.z p)

/-- The three slots a point fills in the normals buffer. -/
def normalOf {F : Type} (p : PointXYZRGBNormal F) : List (Option F) :=
  [some p.normal_x, some p.normal_y, some p.normal_z]

/-- The slots of a tuple of the normals buffer that was allocated and never
written. -/
def unwritten {F : Type} : List (Option F) := [none, none, none]

/-- The container that holds one point and an aligned one-entry array "RGB",
and no normals. -/
def usedContainer : vtkPolyData Int :=
  ⟨some ⟨[(0, 0, 0)]⟩, ⟨[⟨some "RGB", 1, [some 5]⟩], none⟩⟩

/-- The container without points whose active normals are an array that is
named "RGB". -/
def rgbNamedNormals : vtkPolyData Int :=
  ⟨none, ⟨[⟨some "RGB", 3, [some 0, some 0, some 1]⟩], some 0⟩⟩

/-- A world with one readable file, `in.pcd`, whose single point carries a
colour; the writer answers 1. -/
def colourWorld : Env Int :=
  { files := fun file_name =>
      if file_name = "in.pcd" then some (PCDData.xyzrgb [⟨1, 2, 3, 7⟩]) else none
    writeAnswer := fun _ _ => 1 }

/-- A world with one readable file, `in.pcd`, of two plain points; the writer
answers 0 (it failed). -/
def plainWorld : Env Int :=
  { files := fun file_name =>
      if file_name = "in.pcd" then some (PCDData.xyz [⟨1, 2, 3⟩, ⟨4, 5, 6⟩]) else none
    writeAnswer := fun _ _ => 0 }

/-! ## Lemmas on the loops -/

theorem forLoop_succ {σ : Type} (body : Nat → σ → σ) (k : Nat) :
    ∀ (i : Nat) (st : σ), forLoop body i (k + 1) st = body (i + k) (forLoop body i k st) := by
  induction k with
  | zero => intro i st; simp [forLoop]
  | succ k ih =>
    intro i st
    have h := ih (i + 1) (body i st)
    have e : i + 1 + k = i + (k + 1) := by omega
    rw [e] at h
    show forLoop body (i + 1) (k + 1) (body i st) = _
    rw [h]
    rfl

theorem forLoop_bodyXYZ {P F : Type} [HasXYZ P F] (cloud : List P) (k : Nat) :
    forLoop (bodyXYZ cloud) 0 k vtkPoints.New = ⟨(cloud.take k).map xyzOf⟩ := by
  induction k with
  | zero => rfl
  | succ k ih =>
    rw [forLoop_succ, ih, List.take_succ]
    cases h : cloud[k]? <;>
      simp [bodyXYZ, h, vtkPoints.InsertNextPoint, xyzOf]

theorem forLoop_bodyXYZRGB {F : Type} (cloud : List (PointXYZRGB F)) (k : Nat) :
    forLoop (bodyXYZRGB cloud) 0 k
        (vtkPoints.New, ((vtkFloatArray.New : vtkFloatArray F).SetNumberOfComponents 1).SetName "RGB")
      = (⟨(cloud.take k).map (fun p => (p.x, p.y, p.z))⟩,
         ⟨some "RGB", 1, (cloud.take k).map (fun p => some p.rgb)⟩) := by
  induction k with
  | zero => rfl
  | succ k ih =>
    rw [forLoop_succ, ih, List.take_succ]
    cases h : cloud[k]? <;>
      simp [bodyXYZRGB, h, vtkPoints.InsertNextPoint, vtkFloatArray.InsertNextValue]

theorem length_flatMap_normalOf {F : Type} (l : List (PointXYZRGBNormal F)) :
    (l.flatMap normalOf).length = 3 * l.length := by
  induction l with
  | nil => rfl
  | cons p l ih => simp [List.flatMap_cons, normalOf, ih]; omega

theorem setTuple_block {F : Type} (A : List (Option F)) (k m : Nat) (a b c : F)
    (hA : A.length = 3 * k) :
    List.foldl (fun d j => d.set (k * 3 + j) [a, b, c][j]?)
        (A ++ List.replicate (3 * (m + 1)) none) (List.range 3)
      = A ++ [some a, some b, some c] ++ List.replicate (3 * m) none := by
  have e : List.replicate (3 * (m + 1)) (none : Option F)
      = none :: none :: none :: List.replicate (3 * m) none := by
    have : 3 * (m + 1) = 3 * m + 1 + 1 + 1 := by omega
    rw [this]; rfl
  have r : List.range 3 = [0, 1, 2] := rfl
  have h0 : A.length ≤ k * 3 + 0 := by omega
  have h1 : A.length ≤ k * 3 + 1 := by omega
  have h2 : A.length ≤ k * 3 + 2 := by omega
  have d0 : k * 3 + 0 - A.length = 0 := by omega
  have d1 : k * 3 + 1 - A.length = 1 := by omega
  have d2 : k * 3 + 2 - A.length = 2 := by omega
  rw [e, r]
  simp only [List.foldl]
  rw [List.set_append_right _ _ h0, d0]
  simp only [List.set_cons_zero]
  rw [List.set_append_right _ _ h1, d1]
  simp only [List.set_cons_succ, List.set_cons_zero]
  rw [List.set_append_right _ _ h2, d2]
  simp

theorem afterXYZRGBNormal_eq {F : Type} (cloud : List (PointXYZRGBNormal F)) (k : Nat)
    (hk : k ≤ cloud.length) :
    afterXYZRGBNormal cloud k
      = { points := ⟨(cloud.take k).map (fun p => (p.x, p.y, p.z))⟩
          rgbs := ⟨some "RGB", 1, (cloud.take k).map (fun p => some p.rgb)⟩
          normals := ⟨none, 3, (cloud.take k).flatMap normalOf
              ++ List.replicate (3 * (cloud.length - k)) none⟩ } := by
  induction k with
  | zero =>
    simp [afterXYZRGBNormal, forLoop, initXYZRGBNormal, vtkFloatArray.SetNumberOfTuples,
      vtkFloatArray.SetNumberOfComponents, vtkFloatArray.SetName, vtkFloatArray.New,
      vtkPoints.New, Nat.mul_comm]
  | succ k ih =>
    have hlt : k < cloud.length := hk
    have ih := ih (Nat.le_of_lt hlt)
    unfold afterXYZRGBNormal at ih ⊢
    rw [forLoop_succ, ih, List.take_succ]
    have hget : cloud[k]? = some cloud[k] := List.getElem?_eq_getElem hlt
    have hm : cloud.length - k = (cloud.length - (k + 1)) + 1 := by omega
    have hA : ((cloud.take k).flatMap normalOf).length = 3 * k := by
      rw [length_flatMap_normalOf, List.length_take, Nat.min_eq_left (Nat.le_of_lt hlt)]
    simp only [Nat.zero_add, bodyXYZRGBNormal, hget, vtkPoints.InsertNextPoint,
      vtkFloatArray.InsertNextValue, vtkFloatArray.SetTuple]
    rw [hm, setTuple_block _ k _ _ _ _ hA]
    simp only [hget, Option.toList, List.map_append, List.flatMap_append, List.map_cons,
      List.map_nil, List.flatMap_cons, List.flatMap_nil, normalOf, List.append_assoc,
      List.append_nil, Nat.add_sub_cancel]

/-! ## What each routine returns -/

theorem PCLtoVTK_eq {P F : Type} [HasXYZ P F] (cloud : List P) (pdata : vtkPolyData F) :
    PCLtoVTK cloud pdata = { pdata with points := some ⟨cloud.map xyzOf⟩ } := by
  simp [PCLtoVTK, forLoop_bodyXYZ, vtkPolyData.SetPoints]

theorem PCLtoVTK_PointXYZRGB_eq {F : Type} (cloud : List (PointXYZRGB F))
    (pdata : vtkPolyData F) :
    PCLtoVTK_PointXYZRGB cloud pdata
      = { points := some ⟨cloud.map (fun p => (p.x, p.y, p.z))⟩
          pointData :=
            { arrays := addToArrays ⟨some "RGB", 1, cloud.map (fun p => some p.rgb)⟩
                pdata.pointData.arrays
              normalsIndex := pdata.pointData.normalsIndex } } := by
  simp [PCLtoVTK_PointXYZRGB, forLoop_bodyXYZRGB, vtkPolyData.SetPoints,
    vtkPointData.AddArray]

theorem PCLtoVTK_PointXYZRGBNormal_eq {F : Type} (cloud : List (PointXYZRGBNormal F))
    (pdata : vtkPolyData F) :
    PCLtoVTK_PointXYZRGBNormal cloud pdata
      = { points := some ⟨cloud.map (fun p => (p.x, p.y, p.z))⟩
          pointData :=
            vtkPointData.SetNormals
              { arrays := addToArrays ⟨some "RGB", 1, cloud.map (fun p => some p.rgb)⟩
                  pdata.pointData.arrays
                normalsIndex := pdata.pointData.normalsIndex }
              ⟨none, 3, cloud.flatMap normalOf⟩ } := by
  simp [PCLtoVTK_PointXYZRGBNormal, afterXYZRGBNormal_eq cloud cloud.length (Nat.le_refl _),
    vtkPolyData.SetPoints, vtkPointData.AddArray]

theorem getElem_indexForArray {F : Type} (a : vtkFloatArray F) :
    ∀ l : List (vtkFloatArray F), (addToArrays a l)[indexForArray a l]? = some a := by
  intro l
  induction l with
  | nil => rfl
  | cons b bs ih =>
    unfold addToArrays indexForArray
    split
    · exact List.getElem?_cons_zero
    · simpa using ih

theorem mem_addToArrays {F : Type} (a b : vtkFloatArray F) :
    ∀ l : List (vtkFloatArray F), b ∈ addToArrays a l → b = a ∨ b ∈ l := by
  intro l
  induction l with
  | nil => intro h; simp [addToArrays] at h; exact Or.inl h
  | cons c cs ih =>
    intro h
    unfold addToArrays at h
    split at h
    · rcases List.mem_cons.1 h with h | h
      · exact Or.inl h
      · exact Or.inr (List.mem_cons_of_mem _ h)
    · rcases List.mem_cons.1 h with h | h
      · exact Or.inr (h ▸ List.mem_cons_self _ _)
      · rcases ih h with h | h
        · exact Or.inl h
        · exact Or.inr (List.mem_cons_of_mem _ h)

theorem normals_mem_arrays {F : Type} (pd : vtkPointData F) (a : vtkFloatArray F)
    (h : pd.normals = some a) : a ∈ pd.arrays := by
  unfold vtkPointData.normals at h
  cases hi : pd.normalsIndex with
  | none => simp [hi] at h
  | some i =>
    simp only [hi] at h
    exact List.getElem?_mem h

theorem normals_SetNormals {F : Type} (pd : vtkPointData F) (a : vtkFloatArray F)
    (h : a.numberOfComponents = 3) : (pd.SetNormals a).normals = some a := by
  simp only [vtkPointData.SetNormals, h, if_true, vtkPointData.normals]
  exact getElem_indexForArray a _

theorem mem_SetNormals {F : Type} (pd : vtkPointData F) (a b : vtkFloatArray F)
    (h : b ∈ (pd.SetNormals a).arrays) : b = a ∨ b ∈ pd.arrays := by
  unfold vtkPointData.SetNormals at h
  split at h
  · rcases mem_addToArrays _ _ _ h with h | h
    · exact Or.inl h
    · cases hi : pd.normalsIndex with
      | none => simp only [hi] at h; exact Or.inr h
      | some i => simp only [hi] at h; exact Or.inr (List.mem_of_mem_eraseIdx h)
  · exact Or.inr h

/-! ## Positions and point count -/

/-- C1: for each of the three routines, whatever the container held before the
call, the points of the output container are exactly the triples (x, y, z) of
the input points, in input order, so position i of the output is the triple of
input point i for every index i below the number of points. -/
theorem PCLtoVTK_positions_exact {F : Type} (plain : List (PointXYZ F))
    (coloured : List (PointXYZRGB F)) (full : List (PointXYZRGBNormal F))
    (pdata : vtkPolyData F) :
    ((PCLtoVTK plain pdata).points = some ⟨plain.map (fun p => (p.x, p.y, p.z))⟩ ∧
      ∀ (i : Nat) (h : i < plain.length),
        (PCLtoVTK plain pdata).GetPoint i = some (plain[i].x, plain[i].y, plain[i].z)) ∧
    ((PCLtoVTK_PointXYZRGB coloured pdata).points
        = some ⟨coloured.map (fun p => (p.x, p.y, p.z))⟩ ∧
      ∀ (i : Nat) (h : i < coloured.length),
        (PCLtoVTK_PointXYZRGB coloured pdata).GetPoint i
          = some (coloured[i].x, coloured[i].y, coloured[i].z)) ∧
    ((PCLtoVTK_PointXYZRGBNormal full pdata).points
        = some ⟨full.map (fun p => (p.x, p.y, p.z))⟩ ∧
      ∀ (i : Nat) (h : i < full.length),
        (PCLtoVTK_PointXYZRGBNormal full pdata).GetPoint i
          = some (full[i].x, full[i].y, full[i].z)) := by
  refine ⟨⟨?_, ?_⟩, ⟨?_, ?_⟩, ⟨?_, ?_⟩⟩
  · rw [PCLtoVTK_eq]; rfl
  · intro i h
    rw [PCLtoVTK_eq]
    simp [vtkPolyData.GetPoint, vtkPoints.GetPoint, List.getElem?_eq_getElem h, xyzOf, HasXYZ.x,
      HasXYZ.y, HasXYZ.z]
  · rw [PCLtoVTK_PointXYZRGB_eq]
  · intro i h
    rw [PCLtoVTK_PointXYZRGB_eq]
    simp [vtkPolyData.GetPoint, vtkPoints.GetPoint, List.getElem?_eq_getElem h]
  · rw [PCLtoVTK_PointXYZRGBNormal_eq]
  · intro i h
    rw [PCLtoVTK_PointXYZRGBNormal_eq]
    simp [vtkPolyData.GetPoint, vtkPoints.GetPoint, List.getElem?_eq_getElem h]

/-- Witness of C1: the three routines on two-point clouds and a container that
already holds a point; position 1 of each output is the second input point. -/
theorem PCLtoVTK_positions_exact_witness :
    (PCLtoVTK [(⟨1, 2, 3⟩ : PointXYZ Int), ⟨4, 5, 6⟩] usedContainer).GetPoint 1
        = some (4, 5, 6) ∧
    (PCLtoVTK_PointXYZRGB [(⟨1, 2, 3, 7⟩ : PointXYZRGB Int), ⟨4, 5, 6, 8⟩]
        usedContainer).GetPoint 1 = some (4, 5, 6) ∧
    (PCLtoVTK_PointXYZRGBNormal [(⟨1, 2, 3, 7, 0, 0, 1⟩ : PointXYZRGBNormal Int),
        ⟨4, 5, 6, 8, 0, 1, 0⟩] usedContainer).GetPoint 1 = some (4, 5, 6) :=
  have h := PCLtoVTK_positions_exact [(⟨1, 2, 3⟩ : PointXYZ Int), ⟨4, 5, 6⟩]
    [(⟨1, 2, 3, 7⟩ : PointXYZRGB Int), ⟨4, 5, 6, 8⟩]
    [(⟨1, 2, 3, 7, 0, 0, 1⟩ : PointXYZRGBNormal Int), ⟨4, 5, 6, 8, 0, 1, 0⟩] usedContainer
  ⟨h.1.2 1 (by decide), h.2.1.2 1 (by decide), h.2.2.2 1 (by decide)⟩

/-- C2: for each of the three routines and every input cloud, the empty one
included, the output container has as many points as the input cloud. -/
theorem PCLtoVTK_point_count {F : Type} (plain : List (PointXYZ F))
    (coloured : List (PointXYZRGB F)) (full : List (PointXYZRGBNormal F))
    (pdata : vtkPolyData F) :
    (PCLtoVTK plain pdata).GetNumberOfPoints = plain.length ∧
    (PCLtoVTK_PointXYZRGB coloured pdata).GetNumberOfPoints = coloured.length ∧
    (PCLtoVTK_PointXYZRGBNormal full pdata).GetNumberOfPoints = full.length := by
  rw [PCLtoVTK_eq, PCLtoVTK_PointXYZRGB_eq, PCLtoVTK_PointXYZRGBNormal_eq]
  simp [vtkPolyData.GetNumberOfPoints, vtkPoints.GetNumberOfPoints]

/-! ## The colour array and the normals -/

theorem tuple_of_blocks {F : Type} (l : List (PointXYZRGBNormal F)) (m : Nat) :
    ∀ i : Nat, ((l.flatMap normalOf ++ List.replicate (3 * m) none).drop (i * 3)).take 3
      = (l[i]?.map normalOf).getD (if i < l.length + m then unwritten else []) := by
  induction l with
  | nil =>
    intro i
    by_cases h : i < m
    · have e : min 3 (3 * m - i * 3) = 3 := by omega
      simp [h, List.drop_replicate, List.take_replicate, e, unwritten, List.replicate]
    · have e : min 3 (3 * m - i * 3) = 0 := by omega
      simp [h, List.drop_replicate, List.take_replicate, e]
  | cons p l ih =>
    intro i
    cases i with
    | zero => simp [List.flatMap_cons, normalOf]
    | succ j =>
      have e : (j + 1) * 3 = j * 3 + 1 + 1 + 1 := by omega
      have := ih j
      simp only [List.flatMap_cons, normalOf, e, List.cons_append, List.nil_append,
        List.drop_succ_cons, List.getElem?_cons_succ, List.length_cons] at this ⊢
      rw [this]
      have c : (j + 1 < l.length + 1 + m) = (j < l.length + m) := by
        apply propext; omega
      simp only [c]

/-- C3: on a fresh container, each of the two colour-carrying routines leaves an
attribute array named "RGB" with one component per entry and exactly n entries,
n the number of input points, and entry i is the packed rgb value of input
point i for every i below n. -/
theorem PCLtoVTK_rgb_array {F : Type} (coloured : List (PointXYZRGB F))
    (full : List (PointXYZRGBNormal F)) :
    (∃ a : vtkFloatArray F,
      (PCLtoVTK_PointXYZRGB coloured vtkPolyData.New).pointData.GetArray "RGB" = some a ∧
      a.name = some "RGB" ∧ a.numberOfComponents = 1 ∧
      a.data.length = coloured.length ∧ a.GetNumberOfTuples = coloured.length ∧
      ∀ (i : Nat) (h : i < coloured.length), a.GetValue i = some coloured[i].rgb) ∧
    (∃ a : vtkFloatArray F,
      (PCLtoVTK_PointXYZRGBNormal full vtkPolyData.New).pointData.GetArray "RGB" = some a ∧
      a.name = some "RGB" ∧ a.numberOfComponents = 1 ∧
      a.data.length = full.length ∧ a.GetNumberOfTuples = full.length ∧
      ∀ (i : Nat) (h : i < full.length), a.GetValue i = some full[i].rgb) := by
  constructor
  · refine ⟨⟨some "RGB", 1, coloured.map (fun p => some p.rgb)⟩, ?_, rfl, rfl, ?_, ?_, ?_⟩
    · rw [PCLtoVTK_PointXYZRGB_eq]
      simp [vtkPointData.GetArray, vtkPolyData.New, addToArrays]
    · simp
    · simp [vtkFloatArray.GetNumberOfTuples]
    · intro i h
      simp [vtkFloatArray.GetValue, List.getElem?_eq_getElem h]
  · refine ⟨⟨some "RGB", 1, full.map (fun p => some p.rgb)⟩, ?_, rfl, rfl, ?_, ?_, ?_⟩
    · rw [PCLtoVTK_PointXYZRGBNormal_eq]
      simp [vtkPointData.GetArray, vtkPolyData.New, addToArrays, vtkPointData.SetNormals]
    · simp
    · simp [vtkFloatArray.GetNumberOfTuples]
    · intro i h
      simp [vtkFloatArray.GetValue, List.getElem?_eq_getElem h]

/-- Witness of C3: entry 1 of the array "RGB" each colour-carrying routine
builds from a two-point cloud is the rgb value of the second point. -/
theorem PCLtoVTK_rgb_array_witness :
    (∃ a : vtkFloatArray Int,
      (PCLtoVTK_PointXYZRGB [(⟨1, 2, 3, 7⟩ : PointXYZRGB Int), ⟨4, 5, 6, 8⟩]
        vtkPolyData.New).pointData.GetArray "RGB" = some a ∧ a.GetValue 1 = some 8) ∧
    (∃ a : vtkFloatArray Int,
      (PCLtoVTK_PointXYZRGBNormal [(⟨1, 2, 3, 7, 0, 0, 1⟩ : PointXYZRGBNormal Int),
        ⟨4, 5, 6, 8, 0, 1, 0⟩] vtkPolyData.New).pointData.GetArray "RGB" = some a ∧
      a.GetValue 1 = some 8) :=
  have h := PCLtoVTK_rgb_array [(⟨1, 2, 3, 7⟩ : PointXYZRGB Int), ⟨4, 5, 6, 8⟩]
    [(⟨1, 2, 3, 7, 0, 0, 1⟩ : PointXYZRGBNormal Int), ⟨4, 5, 6, 8, 0, 1, 0⟩]
  ⟨h.1.elim (fun a ha => ⟨a, ha.1, ha.2.2.2.2.2 1 (by decide)⟩),
   h.2.elim (fun a ha => ⟨a, ha.1, ha.2.2.2.2.2 1 (by decide)⟩)⟩

/-- C4: the normals that PCLtoVTK for XYZ+RGB+normal points sets on the output
container have 3 components per tuple and exactly n tuples, n the number of
input points, and tuple i is the normal of input point i for every i below n.
The array set is the one the loop ends with, and during the loop slot i of the
n slots allocated by SetNumberOfTuples is unwritten after k iterations for
every k up to i, and holds the normal of point i after k iterations for every
k above i: it is written once, by iteration i. -/
theorem PCLtoVTK_normals_array {F : Type} (full : List (PointXYZRGBNormal F))
    (pdata : vtkPolyData F) :
    ∃ a : vtkFloatArray F,
      (PCLtoVTK_PointXYZRGBNormal full pdata).pointData.normals = some a ∧
      a = (afterXYZRGBNormal full full.length).normals ∧
      a.numberOfComponents = 3 ∧ a.GetNumberOfTuples = full.length ∧
      (initXYZRGBNormal full).normals.GetNumberOfTuples = full.length ∧
      (∀ (i : Nat) (h : i < full.length),
        a.GetTuple i = [some full[i].normal_x, some full[i].normal_y, some full[i].normal_z]) ∧
      (∀ (k i : Nat) (h : i < full.length), k ≤ full.length →
        (afterXYZRGBNormal full k).normals.GetTuple i
          = if i < k then
              [some full[i].normal_x, some full[i].normal_y, some full[i].normal_z]
            else unwritten) := by
  refine ⟨⟨none, 3, full.flatMap normalOf⟩, ?_, ?_, rfl, ?_, ?_, ?_, ?_⟩
  · rw [PCLtoVTK_PointXYZRGBNormal_eq]
    exact normals_SetNormals _ ⟨none, 3, full.flatMap normalOf⟩ rfl
  · rw [afterXYZRGBNormal_eq full full.length (Nat.le_refl _)]; simp
  · simp only [vtkFloatArray.GetNumberOfTuples, length_flatMap_normalOf]
    omega
  · simp [initXYZRGBNormal, vtkFloatArray.GetNumberOfTuples, vtkFloatArray.SetNumberOfTuples,
      vtkFloatArray.SetNumberOfComponents, vtkFloatArray.New]
  · intro i h
    have t := tuple_of_blocks full 0 i
    simp only [Nat.mul_zero, List.replicate_zero, List.append_nil] at t
    simp only [vtkFloatArray.GetTuple]
    rw [t, List.getElem?_eq_getElem h]
    rfl
  · intro k i h hk
    rw [afterXYZRGBNormal_eq full k hk]
    have t := tuple_of_blocks (full.take k) (full.length - k) i
    simp only [vtkFloatArray.GetTuple]
    rw [t]
    by_cases hik : i < k
    · have hi : i < (full.take k).length := by
        rw [List.length_take]; omega
      rw [List.getElem?_eq_getElem hi]
      simp [hik, normalOf, List.getElem_take]
    · have hi : (full.take k).length ≤ i := by
        rw [List.length_take]; omega
      have hlt : i < (full.take k).length + (full.length - k) := by
        rw [List.length_take]; omega
      rw [List.getElem?_eq_none hi, if_pos hlt, if_neg hik]
      rfl

/-- Witness of C4: on a two-point cloud, tuple 1 of the normals is the normal of
the second point; it is unwritten after one iteration and written after two. -/
theorem PCLtoVTK_normals_array_witness :
    ∃ a : vtkFloatArray Int,
      (PCLtoVTK_PointXYZRGBNormal [(⟨1, 2, 3, 7, 0, 0, 1⟩ : PointXYZRGBNormal Int),
        ⟨4, 5, 6, 8, 0, 1, 0⟩] usedContainer).pointData.normals = some a ∧
      a.GetTuple 1 = [some 0, some 1, some 0] ∧
      (afterXYZRGBNormal [(⟨1, 2, 3, 7, 0, 0, 1⟩ : PointXYZRGBNormal Int),
        ⟨4, 5, 6, 8, 0, 1, 0⟩] 1).normals.GetTuple 1 = unwritten ∧
      (afterXYZRGBNormal [(⟨1, 2, 3, 7, 0, 0, 1⟩ : PointXYZRGBNormal Int),
        ⟨4, 5, 6, 8, 0, 1, 0⟩] 2).normals.GetTuple 1 = [some 0, some 1, some 0] :=
  (PCLtoVTK_normals_array [(⟨1, 2, 3, 7, 0, 0, 1⟩ : PointXYZRGBNormal Int),
      ⟨4, 5, 6, 8, 0, 1, 0⟩] usedContainer).elim
    (fun a ha => ⟨a, ha.1, ha.2.2.2.2.2.1 1 (by decide),
      ha.2.2.2.2.2.2 1 1 (by decide) (by decide),
      ha.2.2.2.2.2.2 2 1 (by decide) (by decide)⟩)

/-! ## Runs of the program -/

theorem main_usage_eq {F : Type} (env : Env F) (argv : List String) (h : argv.length < 3) :
    main env argv
      = ⟨EXIT_FAILURE, [Effect.cerr "Required arguments: input.pcd output.vtp\n"]⟩ := by
  simp [main, h]

theorem main_unreadable_eq {F : Type} (env : Env F) (prog inp out : String)
    (rest : List String) (h : env.files inp = none) :
    main env (prog :: inp :: out :: rest)
      = ⟨EXIT_FAILURE,
          [Effect.cout ("Reading " ++ inp ++ " and writing " ++ out ++ "\n"),
           Effect.cout "x y z", Effect.loadFile inp, Effect.cerr "Couldn't read file \n"]⟩ := by
  have hlen : ¬ (rest.length + 1 + 1 + 1 < 3) := by omega
  simp [main, loadPCDFile_PointXYZ, h, hlen]

theorem main_readable_eq {F : Type} (env : Env F) (prog inp out : String)
    (rest : List String) (d : PCDData F) (h : env.files inp = some d) :
    main env (prog :: inp :: out :: rest)
      = ⟨EXIT_SUCCESS,
          [Effect.cout ("Reading " ++ inp ++ " and writing " ++ out ++ "\n"),
           Effect.cout "x y z", Effect.loadFile inp, Effect.convert,
           Effect.writeFile out
             ⟨some ⟨d.positions.map (fun p => (p.x, p.y, p.z))⟩, ⟨[], none⟩⟩]⟩ := by
  have hlen : ¬ (rest.length + 1 + 1 + 1 < 3) := by omega
  have hxyz : (xyzOf : PointXYZ F → F × F × F) = fun p => (p.x, p.y, p.z) := rfl
  simp [main, loadPCDFile_PointXYZ, h, PCLtoVTK_eq, vtkPolyData.New, hlen, hxyz]

/-- C5, as stated, fails: the file `in.pcd` of `colourWorld` carries a colour,
the run on it succeeds, and the container handed to the writer holds the
position of the point and no array named "RGB" (no array at all). -/
theorem main_drops_colour :
    colourWorld.files "in.pcd" = some (PCDData.xyzrgb [⟨1, 2, 3, 7⟩]) ∧
    (PCDData.xyzrgb [(⟨1, 2, 3, 7⟩ : PointXYZRGB Int)]).carriesColour = true ∧
    main colourWorld ["PCLtoVTK", "in.pcd", "out.vtp"]
      = ⟨0, [Effect.cout "Reading in.pcd and writing out.vtp\n", Effect.cout "x y z",
          Effect.loadFile "in.pcd", Effect.convert,
          Effect.writeFile "out.vtp" ⟨some ⟨[(1, 2, 3)]⟩, ⟨[], none⟩⟩]⟩ ∧
    (⟨some ⟨[(1, 2, 3)]⟩, ⟨[], none⟩⟩ : vtkPolyData Int).pointData.GetArray "RGB" = none := by
  decide

/-- C5, amended: on every run with both paths supplied and a readable input
file, whatever variant the points of the file have, main loads the file as a
plain XYZ cloud and runs the plain XYZ routine on a fresh container: the one
container handed to the writer holds exactly the positions of the points of
the file, in file order, and neither an attribute array nor normals. -/
theorem main_writes_positions_only {F : Type} (env : Env F) (prog inp out : String)
    (rest : List String) (d : PCDData F) (h : env.files inp = some d) :
    ∃ pdata : vtkPolyData F,
      (main env (prog :: inp :: out :: rest)).effects.getLast? = some (Effect.writeFile out pdata) ∧
      (∀ (f : String) (q : vtkPolyData F),
        Effect.writeFile f q ∈ (main env (prog :: inp :: out :: rest)).effects → q = pdata) ∧
      Effect.convert ∈ (main env (prog :: inp :: out :: rest)).effects ∧
      pdata = PCLtoVTK d.positions vtkPolyData.New ∧
      pdata.points = some ⟨d.positions.map (fun p => (p.x, p.y, p.z))⟩ ∧
      pdata.GetNumberOfPoints = d.size ∧
      pdata.pointData.arrays = [] ∧ pdata.pointData.normals = none := by
  refine ⟨⟨some ⟨d.positions.map (fun p => (p.x, p.y, p.z))⟩, ⟨[], none⟩⟩, ?_, ?_, ?_, ?_,
    rfl, ?_, rfl, rfl⟩
  · rw [main_readable_eq env prog inp out rest d h]; rfl
  · intro f q hq
    rw [main_readable_eq env prog inp out rest d h] at hq
    simp at hq
    exact hq.2
  · rw [main_readable_eq env prog inp out rest d h]; simp
  · rw [PCLtoVTK_eq]; rfl
  · simp [vtkPolyData.GetNumberOfPoints, vtkPoints.GetNumberOfPoints, PCDData.size]

/-- Witness of C5, amended: the run on the coloured file of `colourWorld`. -/
theorem main_writes_positions_only_witness :
    ∃ pdata : vtkPolyData Int,
      (main colourWorld ["PCLtoVTK", "in.pcd", "out.vtp"]).effects.getLast?
        = some (Effect.writeFile "out.vtp" pdata) ∧
      pdata.points = some ⟨[(1, 2, 3)]⟩ ∧
      pdata.pointData.arrays = [] ∧ pdata.pointData.normals = none :=
  (main_writes_positions_only colourWorld "PCLtoVTK" "in.pcd" "out.vtp" []
      (PCDData.xyzrgb [⟨1, 2, 3, 7⟩]) (by decide)).elim
    (fun pdata hp => ⟨pdata, hp.1, hp.2.2.2.2.1, hp.2.2.2.2.2.2.1, hp.2.2.2.2.2.2.2⟩)

/-- C6: with fewer than two path arguments (argc below 3) main sends the usage
message to the error stream and does nothing else, so it calls neither the
loader nor the writer, and returns EXIT_FAILURE, which is not zero. With at
least two path arguments the usage message is not sent, the first argument is
the one file name the loader is called with, the second argument is the only
file name the writer is ever called with, and it is called with it whenever the
input is readable. -/
theorem main_argument_check {F : Type} (env : Env F) (argv : List String) :
    (argv.length < 3 →
      (main env argv).status = EXIT_FAILURE ∧ (main env argv).status ≠ 0 ∧
      (main env argv).effects = [Effect.cerr "Required arguments: input.pcd output.vtp\n"] ∧
      (∀ f : String, Effect.loadFile f ∉ (main env argv).effects) ∧
      (∀ (f : String) (q : vtkPolyData F), Effect.writeFile f q ∉ (main env argv).effects)) ∧
    (3 ≤ argv.length →
      ∃ (prog inp out : String) (rest : List String), argv = prog :: inp :: out :: rest ∧
        Effect.cerr "Required arguments: input.pcd output.vtp\n" ∉ (main env argv).effects ∧
        (main env argv).effects.take 3
          = [Effect.cout ("Reading " ++ inp ++ " and writing " ++ out ++ "\n"),
             Effect.cout "x y z", Effect.loadFile inp] ∧
        (∀ f : String, Effect.loadFile f ∈ (main env argv).effects → f = inp) ∧
        (∀ (f : String) (q : vtkPolyData F),
          Effect.writeFile f q ∈ (main env argv).effects → f = out) ∧
        (env.files inp ≠ none →
          ∃ q : vtkPolyData F, Effect.writeFile out q ∈ (main env argv).effects)) := by
  constructor
  · intro h
    rw [main_usage_eq env argv h]
    simp [EXIT_FAILURE]
  · intro h
    match argv, h with
    | prog :: inp :: out :: rest, _ =>
      refine ⟨prog, inp, out, rest, rfl, ?_⟩
      cases hf : env.files inp with
      | none =>
        rw [main_unreadable_eq env prog inp out rest hf]
        simp
      | some d =>
        rw [main_readable_eq env prog inp out rest d hf]
        simp

/-- Witness of C6: a run with one argument, and a run with two. -/
theorem main_argument_check_witness :
    (main plainWorld ["PCLtoVTK", "in.pcd"]).status = EXIT_FAILURE ∧
    (∃ (prog inp out : String) (rest : List String),
      ["PCLtoVTK", "in.pcd", "out.vtp"] = prog :: inp :: out :: rest ∧
      ∀ f : String,
        Effect.loadFile f ∈ (main plainWorld ["PCLtoVTK", "in.pcd", "out.vtp"]).effects →
          f = inp) :=
  ⟨((main_argument_check plainWorld ["PCLtoVTK", "in.pcd"]).1 (by decide)).1,
   ((main_argument_check plainWorld ["PCLtoVTK", "in.pcd", "out.vtp"]).2 (by decide)).elim
    (fun prog h1 => h1.elim (fun inp h2 => h2.elim (fun out h3 => h3.elim (fun rest h4 =>
      ⟨prog, inp, out, rest, h4.1, h4.2.2.2.1⟩))))⟩

/-- C7: on every run with both paths supplied in which the loader fails to read
the input file, main returns EXIT_FAILURE, which is not zero, after sending a
message to the error stream, and reaches neither the conversion nor the
writer: no output file is written. -/
theorem main_unreadable_input {F : Type} (env : Env F) (prog inp out : String)
    (rest : List String) (h : (loadPCDFile_PointXYZ env inp).1 = -1) :
    env.files inp = none ∧
    (main env (prog :: inp :: out :: rest)).status = EXIT_FAILURE ∧
    (main env (prog :: inp :: out :: rest)).status ≠ 0 ∧
    Effect.cerr "Couldn't read file \n" ∈ (main env (prog :: inp :: out :: rest)).effects ∧
    Effect.convert ∉ (main env (prog :: inp :: out :: rest)).effects ∧
    (∀ (f : String) (q : vtkPolyData F),
      Effect.writeFile f q ∉ (main env (prog :: inp :: out :: rest)).effects) := by
  have hf : env.files inp = none := by
    cases hd : env.files inp with
    | none => rfl
    | some d => simp [loadPCDFile_PointXYZ, hd] at h
  rw [main_unreadable_eq env prog inp out rest hf]
  simp [hf, EXIT_FAILURE]

/-- Witness of C7: the run of `plainWorld` on a path that is no file. -/
theorem main_unreadable_input_witness :
    (main plainWorld ["PCLtoVTK", "missing.pcd", "out.vtp"]).status = EXIT_FAILURE ∧
    Effect.convert ∉ (main plainWorld ["PCLtoVTK", "missing.pcd", "out.vtp"]).effects :=
  have h := main_unreadable_input plainWorld "PCLtoVTK" "missing.pcd" "out.vtp" [] (by decide)
  ⟨h.2.1, h.2.2.2.2.1⟩

/-- C9: on every run with both paths supplied, the exit status is not zero if
and only if the loader reports a read error (its status is -1, which it is
exactly when the file cannot be read); when the load succeeds main returns
EXIT_SUCCESS, and the whole run is the same whatever the writer answers. -/
theorem main_single_error_kind {F : Type} (env : Env F) (prog inp out : String)
    (rest : List String) :
    ((main env (prog :: inp :: out :: rest)).status ≠ 0
      ↔ (loadPCDFile_PointXYZ env inp).1 = -1) ∧
    ((loadPCDFile_PointXYZ env inp).1 = -1 ↔ env.files inp = none) ∧
    ((loadPCDFile_PointXYZ env inp).1 ≠ -1 →
      (main env (prog :: inp :: out :: rest)).status = EXIT_SUCCESS) ∧
    EXIT_SUCCESS = 0 ∧
    (∀ answer : String → vtkPolyData F → Int,
      main { env with writeAnswer := answer } (prog :: inp :: out :: rest)
        = main env (prog :: inp :: out :: rest)) := by
  have hload : (loadPCDFile_PointXYZ env inp).1 = -1 ↔ env.files inp = none := by
    cases hd : env.files inp <;> simp [loadPCDFile_PointXYZ, hd]
  refine ⟨?_, hload, ?_, rfl, fun _ => rfl⟩
  · cases hd : env.files inp with
    | none =>
      rw [main_unreadable_eq env prog inp out rest hd]
      simp [loadPCDFile_PointXYZ, hd, EXIT_FAILURE]
    | some d =>
      rw [main_readable_eq env prog inp out rest d hd]
      simp [loadPCDFile_PointXYZ, hd, EXIT_SUCCESS]
  · intro h
    cases hd : env.files inp with
    | none => exact absurd (hload.2 hd) h
    | some d => rw [main_readable_eq env prog inp out rest d hd]

/-- Witness of C9: in `plainWorld` the file is readable and the writer fails;
the run returns EXIT_SUCCESS. -/
theorem main_single_error_kind_witness :
    plainWorld.writeAnswer "out.vtp" vtkPolyData.New = 0 ∧
    (main plainWorld ["PCLtoVTK", "in.pcd", "out.vtp"]).status = EXIT_SUCCESS :=
  ⟨rfl, (main_single_error_kind plainWorld "PCLtoVTK" "in.pcd" "out.vtp" []).2.2.1
    (by decide)⟩

/-! ## The invariant and the frame of the routines -/

theorem attributesAligned_iff {F : Type} (pdata : vtkPolyData F) :
    attributesAligned pdata = true ↔
      (∀ a ∈ pdata.pointData.arrays, a.GetNumberOfTuples = pdata.GetNumberOfPoints) ∧
      (∀ a, pdata.pointData.normals = some a →
        a.GetNumberOfTuples = pdata.GetNumberOfPoints) := by
  unfold attributesAligned
  cases hn : pdata.pointData.normals <;> simp [List.all_eq_true, Option.all]

theorem filter_addToArrays {F : Type} (a : vtkFloatArray F) (nm : String)
    (ha : a.name = some nm) :
    ∀ l : List (vtkFloatArray F),
      (addToArrays a l).filter (fun b => b.name != some nm)
        = l.filter (fun b => b.name != some nm) := by
  intro l
  induction l with
  | nil => simp [addToArrays, ha]
  | cons c cs ih =>
    unfold addToArrays
    by_cases hc : c.name = some nm
    · simp [ha, hc]
    · have hc2 : ¬ (some nm = c.name) := fun e => hc e.symm
      simp [ha, hc, hc2, ih]

theorem getElem_addToArrays_other {F : Type} (a : vtkFloatArray F) (nm : String)
    (ha : a.name = some nm) (b : vtkFloatArray F) (hb : b.name ≠ some nm) :
    ∀ (l : List (vtkFloatArray F)) (i : Nat), l[i]? = some b →
      (addToArrays a l)[i]? = some b := by
  intro l
  induction l with
  | nil => intro i h; simp at h
  | cons c cs ih =>
    intro i h
    unfold addToArrays
    cases i with
    | zero =>
      have hc : c = b := by simpa using h
      subst hc
      have hc2 : ¬ (c.name = some nm) := hb
      simp [ha, hc2]
    | succ j =>
      have hj : cs[j]? = some b := by simpa using h
      split
      · simpa using hj
      · simpa using ih j hj

theorem find_addToArrays {F : Type} (a : vtkFloatArray F) (nm other : String)
    (ha : a.name = some nm) (hne : other ≠ nm) :
    ∀ l : List (vtkFloatArray F),
      (addToArrays a l).find? (fun b => b.name == some other)
        = l.find? (fun b => b.name == some other) := by
  have hne2 : ¬ (nm = other) := fun e => hne e.symm
  intro l
  induction l with
  | nil => simp [addToArrays, ha, hne2]
  | cons c cs ih =>
    unfold addToArrays
    by_cases hc : c.name = some nm
    · simp [ha, hc, hne2]
    · have hc2 : ¬ (some nm = c.name) := fun e => hc e.symm
      simp [ha, hc, hc2, ih, List.find?_cons]

theorem aligned_of_tuples {F : Type} (n : Nat) (pdata : vtkPolyData F)
    (h : pdata = vtkPolyData.New ∨
      (attributesAligned pdata = true ∧ pdata.GetNumberOfPoints = n)) :
    (∀ a ∈ pdata.pointData.arrays, a.GetNumberOfTuples = n) ∧
    (∀ a, pdata.pointData.normals = some a → a.GetNumberOfTuples = n) := by
  rcases h with h | ⟨h, hn⟩
  · subst h; simp [vtkPolyData.New, vtkPointData.normals]
  · rw [attributesAligned_iff, hn] at h
    exact h

/-- C8, as stated, fails: `usedContainer` holds one point and a one-entry array
"RGB", so it satisfies the invariant; after the plain XYZ routine ran on it
with a cloud of two points it holds two points and the same one-entry array,
and the invariant is broken. -/
theorem PCLtoVTK_breaks_alignment :
    attributesAligned usedContainer = true ∧
    attributesAligned (PCLtoVTK [(⟨1, 2, 3⟩ : PointXYZ Int), ⟨4, 5, 6⟩] usedContainer)
      = false := by
  decide

/-- C8, amended: each of the three routines leaves a container that satisfies
the invariant (one tuple per point in every attribute array and in the
normals) when the container it receives is fresh, or satisfies the invariant
and holds as many points as the input cloud. -/
theorem PCLtoVTK_keeps_alignment {F : Type} (plain : List (PointXYZ F))
    (coloured : List (PointXYZRGB F)) (full : List (PointXYZRGBNormal F))
    (p1 p2 p3 : vtkPolyData F)
    (h1 : p1 = vtkPolyData.New ∨
      (attributesAligned p1 = true ∧ p1.GetNumberOfPoints = plain.length))
    (h2 : p2 = vtkPolyData.New ∨
      (attributesAligned p2 = true ∧ p2.GetNumberOfPoints = coloured.length))
    (h3 : p3 = vtkPolyData.New ∨
      (attributesAligned p3 = true ∧ p3.GetNumberOfPoints = full.length)) :
    attributesAligned (PCLtoVTK plain p1) = true ∧
    attributesAligned (PCLtoVTK_PointXYZRGB coloured p2) = true ∧
    attributesAligned (PCLtoVTK_PointXYZRGBNormal full p3) = true := by
  have a1 := aligned_of_tuples _ p1 h1
  have a2 := aligned_of_tuples _ p2 h2
  have a3 := aligned_of_tuples _ p3 h3
  refine ⟨?_, ?_, ?_⟩
  · rw [attributesAligned_iff, PCLtoVTK_eq]
    simpa [vtkPolyData.GetNumberOfPoints, vtkPoints.GetNumberOfPoints] using a1
  · rw [attributesAligned_iff, PCLtoVTK_PointXYZRGB_eq]
    simp only [vtkPolyData.GetNumberOfPoints, vtkPoints.GetNumberOfPoints, List.length_map]
    have key : ∀ a ∈ addToArrays ⟨some "RGB", 1, coloured.map (fun p => some p.rgb)⟩
        p2.pointData.arrays, a.GetNumberOfTuples = coloured.length := by
      intro a ha
      rcases mem_addToArrays _ _ _ ha with h | h
      · subst h; simp [vtkFloatArray.GetNumberOfTuples]
      · exact a2.1 a h
    exact ⟨key, fun a ha => key a (normals_mem_arrays _ a ha)⟩
  · rw [attributesAligned_iff, PCLtoVTK_PointXYZRGBNormal_eq]
    simp only [vtkPolyData.GetNumberOfPoints, vtkPoints.GetNumberOfPoints, List.length_map]
    have key : ∀ a ∈ (vtkPointData.SetNormals
        { arrays := addToArrays ⟨some "RGB", 1, full.map (fun p => some p.rgb)⟩
            p3.pointData.arrays
          normalsIndex := p3.pointData.normalsIndex }
        ⟨none, 3, full.flatMap normalOf⟩).arrays, a.GetNumberOfTuples = full.length := by
      intro a ha
      rcases mem_SetNormals _ _ _ ha with h | h
      · subst h
        simp only [vtkFloatArray.GetNumberOfTuples, length_flatMap_normalOf]
        omega
      · rcases mem_addToArrays _ _ _ h with h | h
        · subst h; simp [vtkFloatArray.GetNumberOfTuples]
        · exact a3.1 a h
    exact ⟨key, fun a ha => key a (normals_mem_arrays _ a ha)⟩

/-- Witness of C8, amended: the plain routine on `usedContainer` and a cloud of
one point, the two other routines on a fresh container. -/
theorem PCLtoVTK_keeps_alignment_witness :
    attributesAligned (PCLtoVTK [(⟨1, 2, 3⟩ : PointXYZ Int)] usedContainer) = true ∧
    attributesAligned (PCLtoVTK_PointXYZRGB [(⟨1, 2, 3, 7⟩ : PointXYZRGB Int), ⟨4, 5, 6, 8⟩]
      vtkPolyData.New) = true ∧
    attributesAligned (PCLtoVTK_PointXYZRGBNormal
      [(⟨1, 2, 3, 7, 0, 0, 1⟩ : PointXYZRGBNormal Int), ⟨4, 5, 6, 8, 0, 1, 0⟩]
      vtkPolyData.New) = true :=
  PCLtoVTK_keeps_alignment [(⟨1, 2, 3⟩ : PointXYZ Int)]
    [(⟨1, 2, 3, 7⟩ : PointXYZRGB Int), ⟨4, 5, 6, 8⟩]
    [(⟨1, 2, 3, 7, 0, 0, 1⟩ : PointXYZRGBNormal Int), ⟨4, 5, 6, 8, 0, 1, 0⟩]
    usedContainer vtkPolyData.New vtkPolyData.New
    (Or.inr (by decide)) (Or.inl rfl) (Or.inl rfl)

/-- C10, as stated, fails: the active normals of `rgbNamedNormals` are an array
named "RGB" with one tuple of three components; the XYZ+RGB routine on a cloud
of one point replaces that array with its colour array, so the normals of the
container are not what they were. -/
theorem PCLtoVTK_replaces_named_normals :
    rgbNamedNormals.pointData.normals = some ⟨some "RGB", 3, [some 0, some 0, some 1]⟩ ∧
    (PCLtoVTK_PointXYZRGB [(⟨1, 2, 3, 7⟩ : PointXYZRGB Int)] rgbNamedNormals).pointData.normals
      = some ⟨some "RGB", 1, [some 7]⟩ ∧
    (PCLtoVTK_PointXYZRGB [(⟨1, 2, 3, 7⟩ : PointXYZRGB Int)] rgbNamedNormals).pointData.normals
      ≠ rgbNamedNormals.pointData.normals := by
  decide

/-- C10, amended: the plain XYZ routine changes only the points: the arrays and
the normals of the container stay exactly as they were, so on a fresh container
the result has no attribute array and no normals. The XYZ+RGB routine changes
only the points and the array "RGB": the arrays with another name or none stay
as they were, in their order, and on a fresh container the result has exactly
one attribute array and no normals; it leaves the normals as they were when the
container has no normals set, or has normals that are not named "RGB". -/
theorem PCLtoVTK_frame {F : Type} (plain : List (PointXYZ F))
    (coloured : List (PointXYZRGB F)) (pdata : vtkPolyData F) :
    (PCLtoVTK plain pdata).pointData = pdata.pointData ∧
    (PCLtoVTK plain pdata).pointData.normals = pdata.pointData.normals ∧
    (PCLtoVTK plain vtkPolyData.New).pointData.arrays = [] ∧
    (PCLtoVTK plain vtkPolyData.New).pointData.normals = none ∧
    (PCLtoVTK_PointXYZRGB coloured pdata).pointData.normalsIndex
      = pdata.pointData.normalsIndex ∧
    (pdata.pointData.normalsIndex = none ∨
        (∃ a, pdata.pointData.normals = some a ∧ a.name ≠ some "RGB") →
      (PCLtoVTK_PointXYZRGB coloured pdata).pointData.normals = pdata.pointData.normals) ∧
    (PCLtoVTK_PointXYZRGB coloured pdata).pointData.arrays.filter
        (fun b => b.name != some "RGB")
      = pdata.pointData.arrays.filter (fun b => b.name != some "RGB") ∧
    (∀ other : String, other ≠ "RGB" →
      (PCLtoVTK_PointXYZRGB coloured pdata).pointData.GetArray other
        = pdata.pointData.GetArray other) ∧
    (PCLtoVTK_PointXYZRGB coloured vtkPolyData.New).pointData.arrays.length = 1 ∧
    (PCLtoVTK_PointXYZRGB coloured vtkPolyData.New).pointData.normals = none := by
  refine ⟨?_, ?_, ?_, ?_, ?_, ?_, ?_, ?_, ?_, ?_⟩
  · rw [PCLtoVTK_eq]
  · rw [PCLtoVTK_eq]
  · rw [PCLtoVTK_eq]; rfl
  · rw [PCLtoVTK_eq]; rfl
  · rw [PCLtoVTK_PointXYZRGB_eq]
  · intro h
    rw [PCLtoVTK_PointXYZRGB_eq]
    rcases h with h | ⟨a, ha, hname⟩
    · simp [vtkPointData.normals, h]
    · unfold vtkPointData.normals at ha ⊢
      cases hi : pdata.pointData.normalsIndex with
      | none => simp [hi] at ha
      | some i =>
        simp only [hi] at ha ⊢
        rw [ha]
        exact getElem_addToArrays_other _ "RGB" rfl a hname _ i ha
  · rw [PCLtoVTK_PointXYZRGB_eq]
    exact filter_addToArrays _ "RGB" rfl _
  · intro other hne
    rw [PCLtoVTK_PointXYZRGB_eq]
    exact find_addToArrays _ "RGB" other rfl hne _
  · rw [PCLtoVTK_PointXYZRGB_eq]; rfl
  · rw [PCLtoVTK_PointXYZRGB_eq]; rfl

/-- Witness of C10, amended: the XYZ+RGB routine on a container that holds an
array named "label" and normals without a name leaves both as they were. -/
theorem PCLtoVTK_frame_witness :
    (PCLtoVTK_PointXYZRGB [(⟨1, 2, 3, 7⟩ : PointXYZRGB Int)]
        ⟨none, ⟨[⟨some "label", 1, [some 9]⟩, ⟨none, 3, [some 0, some 0, some 1]⟩],
          some 1⟩⟩).pointData.GetArray "label"
      = some ⟨some "label", 1, [some 9]⟩ ∧
    (PCLtoVTK_PointXYZRGB [(⟨1, 2, 3, 7⟩ : PointXYZRGB Int)]
        ⟨none, ⟨[⟨some "label", 1, [some 9]⟩, ⟨none, 3, [some 0, some 0, some 1]⟩],
          some 1⟩⟩).pointData.normals
      = some ⟨none, 3, [some 0, some 0, some 1]⟩ :=
  have h := PCLtoVTK_frame ([] : List (PointXYZ Int)) [(⟨1, 2, 3, 7⟩ : PointXYZRGB Int)]
    ⟨none, ⟨[⟨some "label", 1, [some 9]⟩, ⟨none, 3, [some 0, some 0, some 1]⟩], some 1⟩⟩
  ⟨h.2.2.2.2.2.2.2.1 "label" (by decide),
   h.2.2.2.2.2.1 (Or.inr ⟨⟨none, 3, [some 0, some 0, some 1]⟩, rfl, by decide⟩)⟩

end PCLVTK
